import Mathlib

/-
Verification of the natural-language design document of `figma_gpt_app.py`
against a shallow embedding of that module in Lean 4.

Modelling conventions:
  - Parsed JSON / Python values produced by `json.loads` and `resp.json()`
    are modelled by the inductive `Json`.  JSON numbers are modelled as
    integers; floating-point values never occur in any claim.
  - Python exceptions are modelled by `Except PyErr`; a `.error` value is a
    Python exception propagating out of the function.
  - The external libraries are not code of this repository.  `requests` is
    modelled by response oracles passed as function arguments plus the
    documented meaning of `Response.ok` (status below 400) and
    `Response.raise_for_status` (raises exactly for 4xx and 5xx statuses).
    `json.loads` is passed as a function argument `loads`; a `.error`
    result models `json.JSONDecodeError`.
  - `print` formatting is abstracted into `PrintEvent` values carrying the
    printed data; network effects are logged as request lists in the
    results, so that "no network call" is expressible.
-/

/-- A parsed JSON value, as produced by the json library.  Numbers are
modelled as integers (no claim involves a fractional number). -/
inductive Json where
  | null
  | bool (b : Bool)
  | num (n : Int)
  | str (s : String)
  | arr (elems : List Json)
  | obj (entries : List (String × Json))

/-- Python truthiness of a parsed JSON value: `None`, `False`, `0`, the
empty string, the empty list and the empty dict are falsy. -/
def Json.truthy : Json → Bool
  | .null => false
  | .bool b => b
  | .num n => n != 0
  | .str s => !s.isEmpty
  | .arr elems => !elems.isEmpty
  | .obj entries => !entries.isEmpty

/-- Python equality of a parsed JSON value with a string literal: only a
string value can compare equal to a string. -/
def Json.eqStr : Json → String → Bool
  | .str t, s => t == s
  | _, _ => false

/-- Whether a parsed JSON value is a dict, as tested by
`isinstance(item, dict)`. -/
def Json.isObj : Json → Bool
  | .obj _ => true
  | _ => false

/-- Python exceptions that the embedded code can raise. -/
inductive PyErr where
  | httpError (status : Nat)
  | attributeError
  | typeError
  | indexError
  | keyError
deriving DecidableEq

/-- Python `x.get(key, default)`: defined for dicts, an `AttributeError`
on any other value. -/
def pyGetAttr (j : Json) (key : String) (d : Json) : Except PyErr Json :=
  match j with
  | .obj entries => .ok ((List.lookup key entries).getD d)
  | _ => .error .attributeError

/-- Python `for x in j`: lists yield their elements, dicts their keys,
strings their characters (as one-character strings); any other value
raises `TypeError`. -/
def pyIterJson : Json → Except PyErr (List Json)
  | .arr elems => .ok elems
  | .obj entries => .ok (entries.map (fun kv => Json.str kv.1))
  | .str s => .ok (s.data.map (fun c => Json.str (String.mk [c])))
  | _ => .error .typeError

/-- Python `j[0]`: first element of a list (IndexError when empty), first
character of a string, `KeyError` for a dict (no integer keys in a parsed
JSON dict), `TypeError` otherwise. -/
def pySubscriptZero : Json → Except PyErr Json
  | .arr [] => .error .indexError
  | .arr (x :: _) => .ok x
  | .obj _ => .error .keyError
  | .str s =>
      match s.data with
      | [] => .error .indexError
      | c :: _ => .ok (.str (String.mk [c]))
  | _ => .error .typeError

/-- Modelled from the requests library documentation: `Response.ok` is
true exactly when the status code is below 400. -/
def response_ok (status : Nat) : Bool := status < 400

/-- Modelled from the requests library documentation:
`Response.raise_for_status` raises `requests.HTTPError` exactly for 4xx
and 5xx status codes. -/
def raise_for_status (status : Nat) : Except PyErr Unit :=
  if 400 ≤ status ∧ status < 600 then .error (.httpError status) else .ok ()

/-- An HTTP response as seen by the embedded code: its status code and its
parsed JSON body (the value `resp.json()` returns). -/
structure HttpResponse where
  status : Nat
  jsonBody : Json

/- ## FigmaClient -/

/-- The state of a `FigmaClient` instance. -/
structure FigmaClient where
  token : String
  base_url : String

/-- Python `base_url.rstrip("/")`. -/
def rstripSlashes (s : String) : String :=
  String.mk ((s.data.reverse.dropWhile (fun c => c == '/')).reverse)

/-- `FigmaClient.__init__`: stores the token and the base URL with
trailing slashes removed. -/
def FigmaClient.make (token : String) (base_url : String) : FigmaClient :=
  ⟨token, rstripSlashes base_url⟩

/-- `FigmaClient._headers`. -/
def FigmaClient.requestHeaders (c : FigmaClient) : List (String × String) :=
  [("X-Figma-Token", c.token)]

/-- The URL `f"{self.base_url}/files/{file_key}"` requested by `get_file`. -/
def figma_request_url (c : FigmaClient) (file_key : String) : String :=
  c.base_url ++ "/files/" ++ file_key

/-- `FigmaClient.get_file`, with `requests.get` supplied as the oracle
`get` from URL and headers to the response. -/
def FigmaClient.get_file (c : FigmaClient)
    (get : String → List (String × String) → HttpResponse)
    (file_key : String) : Except PyErr Json := do
  let url := figma_request_url c file_key
  let resp := get url c.requestHeaders
  if !(response_ok resp.status) then raise_for_status resp.status
  return resp.jsonBody

/- ## extract_frame_names -/

/-- Inner loop of `extract_frame_names`: `for node in page.get("children", [])`,
appending `node.get("name")` whenever `node.get("type") == "FRAME"` and the
name is truthy. -/
def frames_of_nodes : List Json → Except PyErr (List Json)
  | [] => .ok []
  | node :: rest => do
      let ty ← pyGetAttr node "type" Json.null
      let here ←
        if Json.eqStr ty "FRAME" then do
          let name ← pyGetAttr node "name" Json.null
          pure (if name.truthy then [name] else [])
        else
          pure ([] : List Json)
      let there ← frames_of_nodes rest
      pure (here ++ there)

/-- Outer loop of `extract_frame_names`: `for page in pages`. -/
def frames_of_pages : List Json → Except PyErr (List Json)
  | [] => .ok []
  | page :: rest => do
      let childrenVal ← pyGetAttr page "children" (Json.arr [])
      let children ← pyIterJson childrenVal
      let here ← frames_of_nodes children
      let there ← frames_of_pages rest
      pure (here ++ there)

/-- `extract_frame_names(file_data)`. -/
def extract_frame_names (file_data : Json) : Except PyErr (List Json) := do
  let document ← pyGetAttr file_data "document" (Json.obj [])
  let pagesVal ← pyGetAttr document "children" (Json.arr [])
  let pages ← pyIterJson pagesVal
  frames_of_pages pages

/- ## Document constructors for structured inputs -/

/-- A page node holding the given children. -/
def mkPage (children : List Json) : Json :=
  Json.obj [("children", Json.arr children)]

/-- A document mapping holding the given pages under the root node. -/
def mkDocument (pages : List Json) : Json :=
  Json.obj [("document", Json.obj [("children", Json.arr pages)])]

/-- From the spec: a depth-two node contributes its name exactly when its
type tag equals the container marker "FRAME" and its name is non-empty
(truthy); every other node contributes nothing. -/
def frame_name_of (node : Json) : Option Json :=
  match node with
  | Json.obj entries =>
      if Json.eqStr ((List.lookup "type" entries).getD Json.null) "FRAME" then
        if ((List.lookup "name" entries).getD Json.null).truthy then
          some ((List.lookup "name" entries).getD Json.null)
        else none
      else none
  | _ => none

/- ## Basic computation lemmas -/

lemma ok_bind {α β : Type} (a : α) (f : α → Except PyErr β) :
    (Except.ok a >>= f) = f a := rfl

lemma pure_ok {α : Type} (a : α) : (pure a : Except PyErr α) = Except.ok a := rfl

lemma pyGetAttr_obj (entries : List (String × Json)) (key : String) (d : Json) :
    pyGetAttr (Json.obj entries) key d = .ok ((List.lookup key entries).getD d) := rfl

lemma lookup_singleton (k : String) (v : Json) : List.lookup k [(k, v)] = some v := by
  simp [List.lookup]

lemma frames_of_nodes_objs (ns : List (List (String × Json))) :
    frames_of_nodes (ns.map Json.obj)
      = Except.ok ((ns.map Json.obj).filterMap frame_name_of) := by
  induction ns with
  | nil => rfl
  | cons kvs rest ih =>
      simp only [List.map_cons, frames_of_nodes, pyGetAttr_obj, ok_bind, List.filterMap_cons]
      by_cases hty : Json.eqStr ((List.lookup "type" kvs).getD Json.null) "FRAME"
      · simp only [hty, if_true, pyGetAttr_obj, ok_bind, frame_name_of]
        by_cases hname : ((List.lookup "name" kvs).getD Json.null).truthy
        · simp [hname, ih, ok_bind]
        · simp [hname, ih, ok_bind]
      · simp [frame_name_of, hty, ih, ok_bind]

lemma frames_of_pages_mk (pcs : List (List (List (String × Json)))) :
    frames_of_pages (pcs.map (fun ns => mkPage (ns.map Json.obj)))
      = Except.ok ((pcs.map (fun ns => (ns.map Json.obj).filterMap frame_name_of)).flatten) := by
  induction pcs with
  | nil => rfl
  | cons ns rest ih =>
      simp only [mkPage] at ih ⊢
      simp only [List.map_cons, frames_of_pages, pyGetAttr_obj, lookup_singleton,
        Option.getD_some, ok_bind, pyIterJson, frames_of_nodes_objs, ih, pure_ok,
        List.flatten_cons]

lemma extract_mkDocument (pages : List Json) :
    extract_frame_names (mkDocument pages) = frames_of_pages pages := rfl

lemma flatten_filterMap_objs (pcs : List (List (List (String × Json)))) :
    (pcs.map (fun ns => (ns.map Json.obj).filterMap frame_name_of)).flatten
      = ((pcs.flatten).map Json.obj).filterMap frame_name_of := by
  induction pcs with
  | nil => rfl
  | cons ns rest ih =>
      simp only [List.map_cons, List.flatten_cons, List.map_append, List.filterMap_append, ih]

/-- Structured characterization of `extract_frame_names`: on any document
whose pages and depth-two nodes are mappings, it returns exactly the
`frame_name_of`-filtered depth-two nodes in order. -/
lemma extract_frame_names_structured (pcs : List (List (List (String × Json)))) :
    extract_frame_names (mkDocument (pcs.map (fun ns => mkPage (ns.map Json.obj))))
      = Except.ok (((pcs.flatten).map Json.obj).filterMap frame_name_of) := by
  rw [extract_mkDocument, frames_of_pages_mk, flatten_filterMap_objs]

/- ## generate_features_from_figma -/

/-- One element of the `messages` list sent to the completion endpoint. -/
structure ChatMessage where
  role : String
  content : String
deriving DecidableEq

/-- The request body built by `generate_features_from_figma`.  The
sampling temperature is passed through untouched by the code, so its type
`T` is kept abstract (in the source it is a float, default 0.2). -/
structure ChatBody (T : Type) where
  model : String
  temperature : T
  max_tokens : Nat
  messages : List ChatMessage
  n : Nat

/-- A POST request to the completion endpoint: URL, headers, and the body
that is serialized with `json.dumps`. -/
structure ChatRequest (T : Type) where
  url : String
  headers : List (String × String)
  body : ChatBody T

/-- One output record of `generate_features_from_figma`: a dict with the
two keys `title` and `description`, both always present. -/
structure Feature where
  title : Json
  description : Json

/-- The fixed framing text of the prompt, built from the adjacent string
literals of the source. -/
def prompt_intro : String :=
  "The following is a list of design sections extracted from a Figma " ++
  "file.  For each section, suggest a concise feature title and a short " ++
  "description (one sentence) suitable for inclusion in a product " ++
  "requirements document.  Respond with a JSON array where each element " ++
  "has \x27title\x27 and \x27description\x27 fields.\n"

/-- The fixed system-role persona message. -/
def system_chat_message : ChatMessage :=
  ChatMessage.mk "system" "You are a helpful product manager."

/-- The fixed completion endpoint URL. -/
def openai_chat_url : String := "https://api.openai.com/v1/chat/completions"

/-- `item.get(key, default)` for an `item` already known to be a dict
(the comprehension filters with `isinstance(item, dict)` first). -/
def dict_get (item : Json) (key : String) (d : Json) : Json :=
  match item with
  | .obj entries => (List.lookup key entries).getD d
  | _ => d

/-- The dict built for each kept array element: `title` defaulting to
"Untitled Feature" and `description` defaulting to the empty string. -/
def normalize_item (item : Json) : Feature :=
  Feature.mk (dict_get item "title" (Json.str "Untitled Feature"))
    (dict_get item "description" (Json.str ""))

/-- The part of `generate_features_from_figma` that handles the response
of the completion endpoint: status check, extraction of
`choices[0].message.content`, `json.loads` guarded by
`except json.JSONDecodeError`, and the normalizing comprehension. -/
def process_completion_response (loads : String → Except Unit Json)
    (resp : HttpResponse) : Except PyErr (List Feature) := do
  if !(response_ok resp.status) then raise_for_status resp.status
  let data := resp.jsonBody
  let choices ← pyGetAttr data "choices" (Json.arr [Json.obj []])
  let choiceZero ← pySubscriptZero choices
  let message ← pyGetAttr choiceZero "message" (Json.obj [])
  let content ← pyGetAttr message "content" (Json.str "")
  match content with
  | Json.str ctext =>
      match loads ctext with
      | .ok features => do
          let items ← pyIterJson features
          pure ((items.filter Json.isObj).map normalize_item)
      | .error _ =>
          pure [Feature.mk (Json.str "Model response") (Json.str ctext)]
  | _ => Except.error PyErr.typeError

/-- `generate_features_from_figma`.  `post` is the `requests.post` oracle;
`loads` is `json.loads`.  The first component of the result is the list
of POST requests issued (empty or a singleton), the second the returned
value or the propagated exception. -/
def generate_features_from_figma {T : Type} (frame_names : List String)
    (openai_api_key : String) (model : String) (temperature : T)
    (max_tokens : Nat) (post : ChatRequest T → HttpResponse)
    (loads : String → Except Unit Json) :
    List (ChatRequest T) × Except PyErr (List Feature) :=
  let frame_names_list := frame_names
  if frame_names_list.isEmpty then ([], Except.ok [])
  else
    let frames_formatted :=
      String.intercalate "\n" (frame_names_list.map (fun name => "- " ++ name))
    let prompt := prompt_intro ++ "\nDesign sections:\n" ++ frames_formatted ++ "\n"
    let messages := [system_chat_message, ChatMessage.mk "user" prompt]
    let headers :=
      [("Authorization", "Bearer " ++ openai_api_key),
       ("Content-Type", "application/json")]
    let body := ChatBody.mk model temperature max_tokens messages 1
    let req := ChatRequest.mk openai_chat_url headers body
    ([req], process_completion_response loads (post req))

/-- A completion-endpoint response body of the documented shape, holding
the given value at `choices[0].message.content`. -/
def mkCompletionBody (content : Json) : Json :=
  Json.obj [("choices",
    Json.arr [Json.obj [("message", Json.obj [("content", content)])]])]

/- ## main -/

/-- One `print` call of `main`.  Fixed lines carry their exact text;
formatted lines carry the formatted data (string interpolation of
arbitrary values is abstracted). -/
inductive PrintEvent where
  | message (s : String)
  | foundFrames (count : Nat) (names : List Json)
  | featureLine (title description : Json)

/-- The guidance message printed when an environment variable is missing. -/
def missing_env_message : String :=
  "FIGMA_TOKEN, FIGMA_FILE_KEY and OPENAI_API_KEY environment variables " ++
  "must be set to run this example."

/-- The message printed when the document holds no frames. -/
def no_frames_message : String := "No frames were found in the Figma document."

/-- The header printed before the generated features. -/
def features_header_message : String := "\nGenerated feature suggestions:\n"

/-- Python truthiness of `os.environ.get`: `None` and the empty string
are falsy. -/
def optTruthy : Option String → Bool
  | none => false
  | some s => !s.isEmpty

/-- The observable behaviour of one run of `main`: the print calls, the
GET requests to the design service, the POST requests to the completion
service, and whether the run ended normally or with an exception. -/
structure Trace (T : Type) where
  prints : List PrintEvent
  figmaRequests : List String
  openaiRequests : List (ChatRequest T)
  outcome : Except PyErr Unit

/-- The function `main` of the source (renamed, since `main` is reserved in Lean).  `env` is `os.environ.get`; `get` and `post` are the two
request oracles; `loads` is `json.loads`; `pyStr` is the string
conversion applied by f-string interpolation; `temperature` stands for
the default float literal 0.2 of `generate_features_from_figma`, which
`main` leaves at its default along with model "gpt-4" and max_tokens
512. -/
def main_entry {T : Type} (env : String → Option String)
    (get : String → List (String × String) → HttpResponse)
    (post : ChatRequest T → HttpResponse)
    (loads : String → Except Unit Json)
    (pyStr : Json → String) (temperature : T) : Trace T :=
  let figma_token := env "FIGMA_TOKEN"
  let figma_file_key := env "FIGMA_FILE_KEY"
  let openai_key := env "OPENAI_API_KEY"
  if !(optTruthy figma_token && optTruthy figma_file_key && optTruthy openai_key) then
    Trace.mk [PrintEvent.message missing_env_message] [] [] (Except.ok ())
  else
    let figma_client := FigmaClient.make (figma_token.getD "") "https://api.figma.com/v1"
    let fkey := figma_file_key.getD ""
    let figmaReqs := [figma_request_url figma_client fkey]
    match FigmaClient.get_file figma_client get fkey with
    | .error e => Trace.mk [] figmaReqs [] (.error e)
    | .ok file_data =>
        match extract_frame_names file_data with
        | .error e => Trace.mk [] figmaReqs [] (.error e)
        | .ok frame_names =>
            if frame_names.isEmpty then
              Trace.mk [PrintEvent.message no_frames_message] figmaReqs [] (Except.ok ())
            else
              let found := PrintEvent.foundFrames frame_names.length frame_names
              let gen := generate_features_from_figma (frame_names.map pyStr)
                (openai_key.getD "") "gpt-4" temperature 512 post loads
              match gen.2 with
              | .error e => Trace.mk [found] figmaReqs gen.1 (.error e)
              | .ok features =>
                  Trace.mk
                    ([found, PrintEvent.message features_header_message] ++
                      features.map (fun f => PrintEvent.featureLine f.title f.description))
                    figmaReqs gen.1 (Except.ok ())

/- ## Support definitions and lemmas for the claims -/

lemma error_bind {α β : Type} (e : PyErr) (f : α → Except PyErr β) :
    (Except.error e >>= f) = (Except.error e : Except PyErr β) := rfl

/-- The single POST request issued by `generate_features_from_figma` for a
non-empty name list. -/
def chat_request_of {T : Type} (frame_names : List String) (openai_api_key : String)
    (model : String) (temperature : T) (max_tokens : Nat) : ChatRequest T :=
  ChatRequest.mk openai_chat_url
    [("Authorization", "Bearer " ++ openai_api_key), ("Content-Type", "application/json")]
    (ChatBody.mk model temperature max_tokens
      [system_chat_message,
       ChatMessage.mk "user" (prompt_intro ++ "\nDesign sections:\n" ++
         String.intercalate "\n" (frame_names.map (fun name => "- " ++ name)) ++ "\n")] 1)

lemma generate_cons {T : Type} (a : String) (l : List String) (key model : String)
    (temp : T) (maxt : Nat) (post : ChatRequest T → HttpResponse)
    (loads : String → Except Unit Json) :
    generate_features_from_figma (a :: l) key model temp maxt post loads
      = ([chat_request_of (a :: l) key model temp maxt],
         process_completion_response loads (post (chat_request_of (a :: l) key model temp maxt))) := rfl

lemma response_ok_true (status : Nat) (h : status < 400) : response_ok status = true := by
  simp only [response_ok, decide_eq_true_eq]
  exact h

lemma response_ok_false (status : Nat) (h : 400 ≤ status) : response_ok status = false := by
  simp only [response_ok, decide_eq_false_iff_not, not_lt]
  exact h

lemma process_completion_http_error (loads : String → Except Unit Json) (status : Nat)
    (body : Json) (h4 : 400 ≤ status) (h6 : status < 600) :
    process_completion_response loads (HttpResponse.mk status body)
      = Except.error (PyErr.httpError status) := by
  have hok := response_ok_false status h4
  simp only [process_completion_response, hok, Bool.not_false, if_true, raise_for_status]
  rw [if_pos ⟨h4, h6⟩]
  rfl

lemma process_completion_str (loads : String → Except Unit Json) (status : Nat)
    (hst : status < 400) (content : Json) :
    process_completion_response loads (HttpResponse.mk status (mkCompletionBody content))
      = (match content with
         | Json.str ctext =>
             (match loads ctext with
              | .ok features => do
                  let items ← pyIterJson features
                  pure ((items.filter Json.isObj).map normalize_item)
              | .error _ =>
                  pure [Feature.mk (Json.str "Model response") (Json.str ctext)])
         | _ => Except.error PyErr.typeError) := by
  have hok := response_ok_true status hst
  simp only [process_completion_response, hok, Bool.not_true, Bool.false_eq_true, if_false,
    mkCompletionBody, pyGetAttr_obj, lookup_singleton, Option.getD_some, ok_bind,
    pySubscriptZero, pure_ok]

lemma process_completion_str_content (loads : String → Except Unit Json) (status : Nat)
    (hst : status < 400) (s : String) :
    process_completion_response loads (HttpResponse.mk status (mkCompletionBody (Json.str s)))
      = (match loads s with
         | .ok features => do
             let items ← pyIterJson features
             pure ((items.filter Json.isObj).map normalize_item)
         | .error _ => pure [Feature.mk (Json.str "Model response") (Json.str s)]) := by
  rw [process_completion_str loads status hst (Json.str s)]

lemma filter_isObj_map_normalize (xs : List Json) :
    (xs.filter Json.isObj).map normalize_item
      = xs.filterMap (fun item =>
          match item with
          | Json.obj entries =>
              some (Feature.mk
                ((List.lookup "title" entries).getD (Json.str "Untitled Feature"))
                ((List.lookup "description" entries).getD (Json.str "")))
          | _ => none) := by
  induction xs with
  | nil => rfl
  | cons x rest ih =>
      cases x <;>
        simp [Json.isObj, normalize_item, dict_get, ih, List.filter_cons, List.filterMap_cons]

/-- The example completion content of the spec, a JSON array holding one
object with only a title. -/
def login_flow_content : String := "[\x7b\"title\":\"Login flow\"\x7d]"

/-- A concrete `json.loads` behaviour used to check the spec examples: it
parses the example array content and rejects everything else. -/
def loads_login : String → Except Unit Json := fun s =>
  if s = login_flow_content then
    Except.ok (Json.arr [Json.obj [("title", Json.str "Login flow")]])
  else Except.error ()

/-- A concrete `json.loads` behaviour mapping the content "42" to the
JSON number 42 and rejecting everything else. -/
def loads_fortytwo : String → Except Unit Json := fun s =>
  if s = "42" then Except.ok (Json.num 42) else Except.error ()

/-- The example document of the spec: one page whose children are a FRAME
named Login, a GROUP named Ignored, and a second FRAME named Login. -/
def example_document : Json :=
  mkDocument [mkPage
    [Json.obj [("type", Json.str "FRAME"), ("name", Json.str "Login")],
     Json.obj [("type", Json.str "GROUP"), ("name", Json.str "Ignored")],
     Json.obj [("type", Json.str "FRAME"), ("name", Json.str "Login")]]]

/- ## Claim theorems -/

/-- Claim C1: for every document, extract_frame_names returns exactly the
names of the depth-two nodes whose type tag equals "FRAME" and whose name
is non-empty, in first-seen order with duplicates preserved; nodes of
other types or depths never contribute.  In particular the example
document yields the name Login twice. -/
theorem extract_frame_names_depth_two_filter :
    (∀ pcs : List (List (List (String × Json))),
        extract_frame_names (mkDocument (pcs.map (fun ns => mkPage (ns.map Json.obj))))
          = Except.ok (((pcs.flatten).map Json.obj).filterMap frame_name_of))
    ∧ extract_frame_names example_document
        = Except.ok [Json.str "Login", Json.str "Login"] :=
  ⟨extract_frame_names_structured, by rfl⟩

/-- Claim C6: a document with zero pages, or whose depth-two nodes never
match the FRAME type with a non-empty name, extracts to the empty
sequence. -/
theorem extract_frame_names_empty_cases :
    extract_frame_names (mkDocument []) = Except.ok []
    ∧ (∀ pcs : List (List (List (String × Json))),
        (∀ ns ∈ pcs, ∀ n ∈ ns, frame_name_of (Json.obj n) = none) →
        extract_frame_names (mkDocument (pcs.map (fun ns => mkPage (ns.map Json.obj))))
          = Except.ok []) := by
  constructor
  · rfl
  · intro pcs h
    rw [extract_frame_names_structured]
    congr 1
    rw [List.filterMap_eq_nil_iff]
    intro a ha
    rw [List.mem_map] at ha
    obtain ⟨n, hn, rfl⟩ := ha
    rw [List.mem_flatten] at hn
    obtain ⟨ns, hns, hnn⟩ := hn
    exact h ns hns n hnn

/-- Witness for the second part of the C6 theorem, at a document with one
page holding one GROUP node. -/
theorem extract_frame_names_empty_cases_witness :
    extract_frame_names (mkDocument [mkPage
        [Json.obj [("type", Json.str "GROUP"), ("name", Json.str "x")]]])
      = Except.ok [] := by
  have h := extract_frame_names_empty_cases.2
    [[[("type", Json.str "GROUP"), ("name", Json.str "x")]]]
    (by
      intro ns hns n hn
      rw [List.mem_singleton] at hns
      subst hns
      rw [List.mem_singleton] at hn
      subst hn
      rfl)
  simpa [mkPage] using h

/-- Claim C10: extract_frame_names returns normally (no exception) when
the document key is absent, when the document or a page has no children
key, and when a depth-two node has no type or name key: the missing key
is replaced by the default empty container or skipped. -/
theorem extract_frame_names_missing_keys :
    (∀ entries : List (String × Json), List.lookup "document" entries = none →
        extract_frame_names (Json.obj entries) = Except.ok [])
    ∧ (∀ entries dentries, List.lookup "document" entries = some (Json.obj dentries) →
        List.lookup "children" dentries = none →
        extract_frame_names (Json.obj entries) = Except.ok [])
    ∧ (∀ pages : List (List (String × Json)),
        (∀ p ∈ pages, ∀ cv, List.lookup "children" p = some cv →
            ∃ ns : List (List (String × Json)), cv = Json.arr (ns.map Json.obj)) →
        ∃ out, extract_frame_names (mkDocument (pages.map Json.obj)) = Except.ok out) := by
  refine ⟨?_, ?_, ?_⟩
  · intro entries h
    simp only [extract_frame_names, pyGetAttr_obj, h, Option.getD_none, ok_bind]
    rfl
  · intro entries dentries h1 h2
    simp only [extract_frame_names, pyGetAttr_obj, h1, Option.getD_some, ok_bind, h2,
      Option.getD_none]
    rfl
  · intro pages h
    rw [extract_mkDocument]
    induction pages with
    | nil => exact ⟨[], rfl⟩
    | cons p rest ih =>
        obtain ⟨out, hout⟩ := ih (fun q hq cv hcv => h q (List.mem_cons_of_mem _ hq) cv hcv)
        rcases hcv : List.lookup "children" p with _ | cv
        · refine ⟨out, ?_⟩
          simp only [List.map_cons, frames_of_pages, pyGetAttr_obj, hcv, Option.getD_none,
            ok_bind, pyIterJson, frames_of_nodes, hout, pure_ok, List.nil_append]
        · obtain ⟨ns, rfl⟩ := h p (List.mem_cons_self _ _) cv hcv
          refine ⟨(ns.map Json.obj).filterMap frame_name_of ++ out, ?_⟩
          simp only [List.map_cons, frames_of_pages, pyGetAttr_obj, hcv, Option.getD_some,
            ok_bind, pyIterJson, frames_of_nodes_objs, hout, pure_ok]

/-- Witness for the C10 theorem: a mapping with no document key, a
document with no children key, and a document whose single page carries
no children key all extract to a normal result. -/
theorem extract_frame_names_missing_keys_witness :
    extract_frame_names (Json.obj []) = Except.ok []
    ∧ extract_frame_names (Json.obj [("document", Json.obj [("name", Json.str "Doc")])])
        = Except.ok []
    ∧ ∃ out, extract_frame_names (mkDocument ([[("name", Json.str "Page 1")]].map Json.obj))
        = Except.ok out := by
  refine ⟨extract_frame_names_missing_keys.1 [] rfl,
    extract_frame_names_missing_keys.2.1 [("document", Json.obj [("name", Json.str "Doc")])]
      [("name", Json.str "Doc")] rfl rfl,
    extract_frame_names_missing_keys.2.2 [[("name", Json.str "Page 1")]] ?_⟩
  intro p hp cv hcv
  rw [List.mem_singleton] at hp
  subst hp
  rw [show List.lookup "children" [("name", Json.str "Page 1")] = none from rfl] at hcv
  exact Option.noConfusion hcv

/-- Claim C5: with an empty name sequence, generate_features_from_figma
returns the empty sequence and issues no POST request, for every oracle
and every setting of the parameters. -/
theorem generate_empty_no_network {T : Type} (key model : String) (temp : T)
    (maxt : Nat) (post : ChatRequest T → HttpResponse)
    (loads : String → Except Unit Json) :
    generate_features_from_figma [] key model temp maxt post loads
      = ([], Except.ok []) := rfl

/-- Claim C7: for every non-empty name sequence, the one POST request sent
to the fixed completion endpoint carries exactly the given model id,
temperature, max output length, a request for one completion choice, and
the two-message conversation: the fixed system persona followed by one
user message whose content is the fixed framing text followed by one
bullet line per frame name. -/
theorem generate_request_shape {T : Type} (names : List String) (key model : String)
    (temp : T) (maxt : Nat) (post : ChatRequest T → HttpResponse)
    (loads : String → Except Unit Json) (hne : names ≠ []) :
    (generate_features_from_figma names key model temp maxt post loads).1
      = [ChatRequest.mk "https://api.openai.com/v1/chat/completions"
          [("Authorization", "Bearer " ++ key), ("Content-Type", "application/json")]
          (ChatBody.mk model temp maxt
            [ChatMessage.mk "system" "You are a helpful product manager.",
             ChatMessage.mk "user" (prompt_intro ++ "\nDesign sections:\n" ++
               String.intercalate "\n" (names.map (fun name => "- " ++ name)) ++ "\n")]
            1)] := by
  cases names with
  | nil => exact absurd rfl hne
  | cons a l => rfl

/-- Witness for the C7 theorem at the single name Login. -/
theorem generate_request_shape_witness :
    (generate_features_from_figma ["Login"] "sk-key" "gpt-4" () 512
        (fun _ => HttpResponse.mk 200 Json.null) (fun _ => Except.error ())).1
      = [ChatRequest.mk "https://api.openai.com/v1/chat/completions"
          [("Authorization", "Bearer " ++ "sk-key"), ("Content-Type", "application/json")]
          (ChatBody.mk "gpt-4" () 512
            [ChatMessage.mk "system" "You are a helpful product manager.",
             ChatMessage.mk "user" (prompt_intro ++ "\nDesign sections:\n" ++
               String.intercalate "\n" (["Login"].map (fun name => "- " ++ name)) ++ "\n")]
            1)] :=
  generate_request_shape ["Login"] "sk-key" "gpt-4" () 512
    (fun _ => HttpResponse.mk 200 Json.null) (fun _ => Except.error ())
    (List.cons_ne_nil "Login" [])

/-- Claim C2: when the completion reply content is a string that is not
valid JSON, generate_features_from_figma does not raise and returns
exactly one record titled Model response whose description is the raw
unparsed text. -/
theorem generate_invalid_json_fallback {T : Type} (names : List String)
    (key model : String) (temp : T) (maxt : Nat) (status : Nat) (s : String)
    (loads : String → Except Unit Json) (hne : names ≠ []) (hst : status < 400)
    (hbad : loads s = Except.error ()) :
    (generate_features_from_figma names key model temp maxt
        (fun _ => HttpResponse.mk status (mkCompletionBody (Json.str s))) loads).2
      = Except.ok [Feature.mk (Json.str "Model response") (Json.str s)] := by
  cases names with
  | nil => exact absurd rfl hne
  | cons a l =>
      rw [generate_cons]
      show process_completion_response loads
          (HttpResponse.mk status (mkCompletionBody (Json.str s))) = _
      rw [process_completion_str_content loads status hst s, hbad]
      rfl

/-- Witness for the C2 theorem at the content "not json". -/
theorem generate_invalid_json_fallback_witness :
    (generate_features_from_figma ["Login"] "sk-key" "gpt-4" () 512
        (fun _ => HttpResponse.mk 200 (mkCompletionBody (Json.str "not json")))
        (fun _ => Except.error ())).2
      = Except.ok [Feature.mk (Json.str "Model response") (Json.str "not json")] :=
  generate_invalid_json_fallback ["Login"] "sk-key" "gpt-4" () 512 200 "not json"
    (fun _ => Except.error ()) (List.cons_ne_nil "Login" []) (by decide) rfl

/-- Claim C3: when the completion reply content parses as a JSON array,
the result keeps exactly the object elements in order, with title
defaulting to Untitled Feature and description defaulting to the empty
string, so both keys are always present; and the example content with a
single title-only object yields one record with that title and an empty
description. -/
theorem generate_array_normalization :
    (∀ (T : Type) (names : List String) (key model : String) (temp : T) (maxt : Nat)
        (status : Nat) (s : String) (loads : String → Except Unit Json) (xs : List Json),
        names ≠ [] → status < 400 → loads s = Except.ok (Json.arr xs) →
        (generate_features_from_figma names key model temp maxt
            (fun _ => HttpResponse.mk status (mkCompletionBody (Json.str s))) loads).2
          = Except.ok (xs.filterMap (fun item =>
              match item with
              | Json.obj entries =>
                  some (Feature.mk
                    ((List.lookup "title" entries).getD (Json.str "Untitled Feature"))
                    ((List.lookup "description" entries).getD (Json.str "")))
              | _ => none)))
    ∧ (generate_features_from_figma ["Login"] "sk-key" "gpt-4" () 512
        (fun _ => HttpResponse.mk 200 (mkCompletionBody (Json.str login_flow_content)))
        loads_login).2
      = Except.ok [Feature.mk (Json.str "Login flow") (Json.str "")] := by
  constructor
  · intro T names key model temp maxt status s loads xs hne hst hloads
    cases names with
    | nil => exact absurd rfl hne
    | cons a l =>
        rw [generate_cons]
        show process_completion_response loads
            (HttpResponse.mk status (mkCompletionBody (Json.str s))) = _
        rw [process_completion_str_content loads status hst s, hloads]
        simp only [pyIterJson, ok_bind, pure_ok, filter_isObj_map_normalize]
  · rfl

/-- Witness for the first part of the C3 theorem, at the example array
content of the spec. -/
theorem generate_array_normalization_witness :
    (generate_features_from_figma ["Login"] "sk-key" "gpt-4" () 512
        (fun _ => HttpResponse.mk 200 (mkCompletionBody (Json.str login_flow_content)))
        loads_login).2
      = Except.ok ([Json.obj [("title", Json.str "Login flow")]].filterMap (fun item =>
          match item with
          | Json.obj entries =>
              some (Feature.mk
                ((List.lookup "title" entries).getD (Json.str "Untitled Feature"))
                ((List.lookup "description" entries).getD (Json.str "")))
          | _ => none)) :=
  generate_array_normalization.1 Unit ["Login"] "sk-key" "gpt-4" () 512 200
    login_flow_content loads_login [Json.obj [("title", Json.str "Login flow")]]
    (List.cons_ne_nil "Login" []) (by decide) rfl

/-- Claim C9: a completion reply whose content is valid JSON but neither
an array nor an object, such as the number 42, makes
generate_features_from_figma raise an uncaught TypeError: only JSON
decode errors are caught, and the parsed number is then iterated. -/
theorem generate_nonarray_json_raises :
    (generate_features_from_figma ["Login"] "sk-key" "gpt-4" () 512
        (fun _ => HttpResponse.mk 200 (mkCompletionBody (Json.str "42")))
        loads_fortytwo).2
      = Except.error PyErr.typeError := rfl

/-- Counterexample to claim C4 as stated: a 304 response has a non-2xx
status, yet get_file raises nothing and returns the parsed body, because
the requests ok test only fails from status 400 upward. -/
theorem get_file_304_no_error :
    FigmaClient.get_file (FigmaClient.make "token" "https://api.figma.com/v1")
      (fun _ _ => HttpResponse.mk 304 Json.null) "filekey"
      = Except.ok Json.null := rfl

/-- Claim C4 as amended: every 4xx or 5xx response makes get_file and the
completion POST of generate_features_from_figma raise an HTTP error
carrying the status, never swallowed; every response with status below
400 makes get_file return the parsed JSON body unmodified. -/
theorem http_status_propagation {T : Type} (status : Nat) (body : Json)
    (c : FigmaClient) (file_key : String) (names : List String) (key model : String)
    (temp : T) (maxt : Nat) (loads : String → Except Unit Json) (hne : names ≠ []) :
    (400 ≤ status → status < 600 →
      FigmaClient.get_file c (fun _ _ => HttpResponse.mk status body) file_key
          = Except.error (PyErr.httpError status)
        ∧ (generate_features_from_figma names key model temp maxt
            (fun _ => HttpResponse.mk status body) loads).2
          = Except.error (PyErr.httpError status))
    ∧ (status < 400 →
      FigmaClient.get_file c (fun _ _ => HttpResponse.mk status body) file_key
        = Except.ok body) := by
  constructor
  · intro h4 h6
    constructor
    · have hok := response_ok_false status h4
      simp only [FigmaClient.get_file, hok, Bool.not_false, if_true, raise_for_status]
      rw [if_pos ⟨h4, h6⟩]
      rfl
    · cases names with
      | nil => exact absurd rfl hne
      | cons a l =>
          rw [generate_cons]
          exact process_completion_http_error loads status body h4 h6
  · intro hlt
    have hok := response_ok_true status hlt
    simp only [FigmaClient.get_file, hok, Bool.not_true, Bool.false_eq_true, if_false]
    rfl

/-- Witness for the amended C4 theorem at status 404 for the error half
and, through a second application, status 200 for the success half. -/
theorem http_status_propagation_witness :
    (FigmaClient.get_file (FigmaClient.make "token" "https://api.figma.com/v1")
        (fun _ _ => HttpResponse.mk 404 Json.null) "filekey"
        = Except.error (PyErr.httpError 404)
      ∧ (generate_features_from_figma ["Login"] "sk-key" "gpt-4" () 512
          (fun _ => HttpResponse.mk 404 Json.null) (fun _ => Except.error ())).2
        = Except.error (PyErr.httpError 404))
    ∧ (FigmaClient.get_file (FigmaClient.make "token" "https://api.figma.com/v1")
        (fun _ _ => HttpResponse.mk 200 (Json.str "payload")) "filekey"
        = Except.ok (Json.str "payload")) :=
  ⟨(http_status_propagation 404 Json.null
      (FigmaClient.make "token" "https://api.figma.com/v1") "filekey" ["Login"]
      "sk-key" "gpt-4" () 512 (fun _ => Except.error ())
      (List.cons_ne_nil "Login" [])).1 (by decide) (by decide),
   (http_status_propagation 200 (Json.str "payload")
      (FigmaClient.make "token" "https://api.figma.com/v1") "filekey" ["Login"]
      "sk-key" "gpt-4" () 512 (fun _ => Except.error ())
      (List.cons_ne_nil "Login" [])).2 (by decide)⟩

/-- Claim C8: whenever one of the three environment variables is absent,
main prints only the guidance message and returns normally, issuing no
request to either remote service. -/
theorem main_missing_env_guided_return {T : Type} (env : String → Option String)
    (get : String → List (String × String) → HttpResponse)
    (post : ChatRequest T → HttpResponse) (loads : String → Except Unit Json)
    (pyStr : Json → String) (temp : T)
    (h : env "FIGMA_TOKEN" = none ∨ env "FIGMA_FILE_KEY" = none
        ∨ env "OPENAI_API_KEY" = none) :
    main_entry env get post loads pyStr temp
      = Trace.mk [PrintEvent.message missing_env_message] [] [] (Except.ok ()) := by
  rcases h with h | h | h <;>
    simp [main_entry, h, optTruthy]

/-- Witness for the C8 theorem with an empty environment. -/
theorem main_missing_env_guided_return_witness :
    main_entry (fun _ => none) (fun _ _ => HttpResponse.mk 200 Json.null)
      (fun _ => HttpResponse.mk 200 Json.null) (fun _ => Except.error ())
      (fun _ => "") ()
      = Trace.mk [PrintEvent.message missing_env_message] [] [] (Except.ok ()) :=
  main_missing_env_guided_return (fun _ => none) (fun _ _ => HttpResponse.mk 200 Json.null)
    (fun _ => HttpResponse.mk 200 Json.null) (fun _ => Except.error ())
    (fun _ => "") () (Or.inl rfl)
